import Mathlib

/-!
# Verification of the AquaForesee Scenario Prediction Engine

Shallow embedding of `backend/smart_data_generator.py` (class
`SmartDataGenerator`) in Lean 4, together with theorems settling the
specification claims about the Factor Resolver, District Estimator,
Scenario Cache and Summary Aggregator.

Embedding conventions:
* Python floats are modelled as exact rationals (`ℚ`); the numeric code
  under study adds, multiplies, divides, clamps and compares, so the
  rational model is the faithful idealisation of the arithmetic — except
  at the one place where a float is truncated to an integer,
  `int(total_districts * 0.7)`, where an ulp of rounding error changes the
  integer result (e.g. `90 * 0.7 == 62.99999999999999`): there the IEEE
  binary64 computation is modelled exactly (`float07`, `flDouble`).
  The companion truncation `int(total_districts * 0.4)` agrees with the
  exact rational floor at every size, since `float(0.4)` errs upward by
  relative `2⁻⁵⁴`, strictly less than every half-ulp.
* `random.uniform` draws are passed in explicitly as parameters (the two
  jitter multipliers of `_generate_district_data`).
* The Gemini advisory channel and its possible failures are modelled as an
  injected function returning `Except String String`; a Python exception
  corresponds to the `Except.error` case and a `try/except` block to a
  `match` on it.
* The scenario cache (`self.scenario_cache`) and an instrumentation
  counter for pipeline executions are threaded as explicit state.
-/

namespace AquaForesee

/-- Stress classification labels used by `_generate_district_data`. -/
inductive StressLevel where
  | Deficit
  | Stable
  | Surplus
deriving DecidableEq, Repr

/-- Scenario parameters (`scenario_params` dict): `year`,
`rainfall_change_percent`, `population_change_percent`,
`temperature_change`. -/
structure ScenarioParams where
  year : ℤ
  rainfall_change_percent : ℚ
  population_change_percent : ℚ
  temperature_change : ℚ
deriving DecidableEq, Repr

/-- The four factors produced by `_get_smart_factors` / `_parse_ai_factors`. -/
structure Factors where
  demand_multiplier : ℚ
  supply_multiplier : ℚ
  stress_reduction_bonus : ℚ
  district_variation : ℚ
deriving DecidableEq, Repr

/-- `max lo (min hi x)` — the clamping idiom `max(lo, min(hi, x))` used
throughout `smart_data_generator.py`. -/
def clampQ (lo hi x : ℚ) : ℚ := max lo (min hi x)

/-- `_get_smart_factors`: the deterministic factor computation. The Python
function reads the three fields with `scenario_params.get(key, 0)`; we take
the three values directly (`0` is passed at the call site that uses `{}`). -/
def smartFactors (rainfall_change temp_change pop_change : ℚ) : Factors :=
  let demand_multiplier := 1 + (pop_change * 0.01) + (temp_change * 0.08)
  let supply_multiplier := 1 + (rainfall_change * 0.025) - (temp_change * 0.05)
  let stress_reduction_bonus : ℚ :=
    if rainfall_change > 30 then 0.2
    else if rainfall_change > 15 then 0.1
    else 0.0
  let district_variation := 0.15 + (|rainfall_change| * 0.002)
  { demand_multiplier := clampQ 0.7 1.8 demand_multiplier
    supply_multiplier := clampQ 0.4 2.5 supply_multiplier
    stress_reduction_bonus := clampQ 0.0 0.3 stress_reduction_bonus
    district_variation := clampQ 0.1 0.3 district_variation }

/-- `_get_smart_factors(scenario_params)` applied to a full parameter
record (every call site except the `{}` fallback). -/
def smartFactorsOf (p : ScenarioParams) : Factors :=
  smartFactors p.rainfall_change_percent p.temperature_change
    p.population_change_percent

/-- C4: the deterministic Factor Resolver path returns exactly the four
clamped formulas of the spec: demand `clamp(1 + 0.01·pop + 0.08·temp, 0.7,
1.8)`, supply `clamp(1 + 0.025·rain − 0.05·temp, 0.4, 2.5)`, bonus `0.2` /
`0.1` / `0` by rainfall thresholds `30` / `15`, variation
`clamp(0.15 + 0.002·|rain|, 0.1, 0.3)`. -/
theorem C4_smart_factors_formulas (p : ScenarioParams) :
    (smartFactorsOf p).demand_multiplier
      = clampQ 0.7 1.8 (1 + 0.01 * p.population_change_percent
          + 0.08 * p.temperature_change)
    ∧ (smartFactorsOf p).supply_multiplier
      = clampQ 0.4 2.5 (1 + 0.025 * p.rainfall_change_percent
          - 0.05 * p.temperature_change)
    ∧ (smartFactorsOf p).stress_reduction_bonus
      = (if p.rainfall_change_percent > 30 then (0.2 : ℚ)
         else if p.rainfall_change_percent > 15 then 0.1 else 0)
    ∧ (smartFactorsOf p).district_variation
      = clampQ 0.1 0.3 (0.15 + 0.002 * |p.rainfall_change_percent|) := by
  refine ⟨?_, ?_, ?_, ?_⟩
  · simp only [smartFactorsOf, smartFactors]
    ring_nf
  · simp only [smartFactorsOf, smartFactors]
    ring_nf
  · simp only [smartFactorsOf, smartFactors, clampQ]
    split
    · norm_num
    · split <;> norm_num
  · simp only [smartFactorsOf, smartFactors]
    ring_nf

/-- Regional sensitivity profile (`self.region_profiles` entries). -/
structure RegionProfile where
  base_demand_factor : ℚ
  rainfall_sensitivity : ℚ
  temp_sensitivity : ℚ
  description : String
deriving DecidableEq, Repr

/-- `self.region_profiles`: the static dict of the five known regions. -/
def region_profiles : List (String × RegionProfile) :=
  [ ("district_1", ⟨1.2, 0.8, 1.1, "Agricultural region with high irrigation needs"⟩)
  , ("district_2", ⟨0.9, 0.6, 0.8, "Coastal region with moderate water stress"⟩)
  , ("district_3", ⟨0.7, 1.2, 0.6, "Mountainous region with good water sources"⟩)
  , ("district_4", ⟨1.4, 0.5, 1.3, "Urban region with high population density"⟩)
  , ("district_5", ⟨0.8, 1.0, 0.9, "Rural hilly region with seasonal variations"⟩) ]

/-- `self.region_profiles.get(region_id, self.region_profiles["district_1"])`
as used by `_generate_district_data`. -/
def profileFor (region_id : String) : RegionProfile :=
  (region_profiles.lookup region_id).getD
    ⟨1.2, 0.8, 1.1, "Agricultural region with high irrigation needs"⟩

/-- A district entry of `_get_districts_for_region`'s `district_mapping`. -/
structure District where
  name : String
  coordinates : ℚ × ℚ
deriving DecidableEq, Repr

/-- `_get_districts_for_region`: static district catalog with a default for
unknown region ids. -/
def getDistrictsForRegion (region_id : String) : List District :=
  let district_mapping : List (String × List District) :=
    [ ("district_1", [⟨"North Plains A", (28.5, 77.5)⟩, ⟨"North Plains B", (28.3, 77.7)⟩])
    , ("district_2", [⟨"Coastal Valley A", (27.5, 76.5)⟩, ⟨"Coastal Valley B", (27.3, 76.7)⟩])
    , ("district_3", [⟨"Mountain Ridge A", (29.5, 78.5)⟩, ⟨"Mountain Ridge B", (29.3, 78.7)⟩])
    , ("district_4", [⟨"Central Plateau A", (27.5, 77.5)⟩, ⟨"Central Plateau B", (27.3, 77.7)⟩])
    , ("district_5", [⟨"Eastern Hills A", (28.5, 79.5)⟩, ⟨"Eastern Hills B", (28.3, 79.7)⟩]) ]
  (district_mapping.lookup region_id).getD [⟨"Default District", (28, 77)⟩]

/-- Round-half-to-even to an integer (the rounding mode of Python's builtin
`round`). -/
def roundHalfEvenZ (x : ℚ) : ℤ :=
  if x - ⌊x⌋ < 1 / 2 then ⌊x⌋
  else if x - ⌊x⌋ > 1 / 2 then ⌊x⌋ + 1
  else if ⌊x⌋ % 2 = 0 then ⌊x⌋ else ⌊x⌋ + 1

/-- Python's `round(x, d)`, modelled exactly over `ℚ`. -/
def pyRound (d : ℕ) (x : ℚ) : ℚ := (roundHalfEvenZ (x * 10 ^ d) : ℚ) / 10 ^ d

/-- A per-district prediction record as returned by
`_generate_district_data`. -/
structure Prediction where
  district_name : String
  predicted_demand : ℚ
  predicted_supply : ℚ
  stress_level : StressLevel
  coordinates : ℚ × ℚ
deriving DecidableEq, Repr

/-- The demand value of `_generate_district_data` after jitter and the
`max(demand, 20)` floor. `j1` is the value drawn by the first
`random.uniform(1 - variation, 1 + variation)`. -/
def flooredDemand (region_id : String) (p : ScenarioParams) (f : Factors)
    (district_index : ℕ) (j1 : ℚ) : ℚ :=
  let profile := profileFor region_id
  let base_population : ℚ := 40 + (district_index : ℚ) * 25
  let population_factor := base_population * (1 + p.population_change_percent / 100)
  let base_demand := population_factor * 0.16 * profile.base_demand_factor
  let temp_effect := 1 + (p.temperature_change * profile.temp_sensitivity * 0.06)
  let demand := base_demand * temp_effect * f.demand_multiplier * j1
  max demand 20

/-- The supply value of `_generate_district_data` after jitter and the
`max(supply, 15)` floor. `j2` is the second `random.uniform` draw. -/
def flooredSupply (region_id : String) (p : ScenarioParams) (f : Factors)
    (district_index : ℕ) (j2 : ℚ) : ℚ :=
  let profile := profileFor region_id
  let base_population : ℚ := 40 + (district_index : ℚ) * 25
  let population_factor := base_population * (1 + p.population_change_percent / 100)
  let base_supply := population_factor * 0.14
  let rainfall_effect :=
    1 + (p.rainfall_change_percent / 100 * profile.rainfall_sensitivity * 1.5)
  let temp_loss := 1 - (p.temperature_change * 0.03)
  let supply := base_supply * rainfall_effect * temp_loss * f.supply_multiplier * j2
  max supply 15

/-- The demand/supply ratio of the estimator, with the stress-reduction
bonus applied multiplicatively when it is positive. -/
def adjustedStress (demand supply bonus : ℚ) : ℚ :=
  let r := demand / supply
  if bonus > 0 then r * (1 - bonus) else r

/-- The threshold classification at the end of `_generate_district_data`:
`> 1.2` Deficit, `> 0.85` Stable, else Surplus. -/
def stressClassify (r : ℚ) : StressLevel :=
  if r > 1.2 then .Deficit
  else if r > 0.85 then .Stable
  else .Surplus

/-- `_generate_district_data(region_id, district, scenario_params,
ai_factors, district_index)`, with the two uniform jitter draws `j1`, `j2`
passed explicitly. -/
def generateDistrictData (region_id : String) (district : District)
    (p : ScenarioParams) (f : Factors) (district_index : ℕ) (j1 j2 : ℚ) :
    Prediction :=
  let demand := flooredDemand region_id p f district_index j1
  let supply := flooredSupply region_id p f district_index j2
  { district_name := district.name
    predicted_demand := pyRound 1 demand
    predicted_supply := pyRound 1 supply
    stress_level := stressClassify (adjustedStress demand supply f.stress_reduction_bonus)
    coordinates := district.coordinates }

lemma roundHalfEvenZ_ge_floor (x : ℚ) : ⌊x⌋ ≤ roundHalfEvenZ x := by
  unfold roundHalfEvenZ
  split_ifs <;> omega

/-- Rounding to one decimal never drops below an integer lower bound. -/
lemma pyRound_one_ge_int (n : ℤ) (x : ℚ) (h : (n : ℚ) ≤ x) :
    (n : ℚ) ≤ pyRound 1 x := by
  have h1 : (10 * n : ℤ) ≤ ⌊x * 10 ^ 1⌋ := by
    rw [Int.le_floor]
    push_cast
    linarith
  have h2 : (10 * n : ℤ) ≤ roundHalfEvenZ (x * 10 ^ 1) :=
    le_trans h1 (roundHalfEvenZ_ge_floor _)
  have h3 : ((10 * n : ℤ) : ℚ) ≤ (roundHalfEvenZ (x * 10 ^ 1) : ℚ) := by
    exact_mod_cast h2
  unfold pyRound
  rw [le_div_iff₀ (by norm_num : (0 : ℚ) < 10 ^ 1)]
  push_cast at h3 ⊢
  linarith

/-- C6: for every district estimation call and any values of the two jitter
draws, the returned prediction has `predicted_demand ≥ 20` and
`predicted_supply ≥ 15` (hence `predicted_supply > 0`), and the supply used
as divisor for the stress-ratio inside the estimator is `≥ 15 > 0`, so
neither the estimator's division nor the summary's per-prediction
demand/supply divisions can divide by zero. -/
theorem C6_floor_invariant (region_id : String) (district : District)
    (p : ScenarioParams) (f : Factors) (district_index : ℕ) (j1 j2 : ℚ) :
    20 ≤ (generateDistrictData region_id district p f district_index j1 j2).predicted_demand
    ∧ 15 ≤ (generateDistrictData region_id district p f district_index j1 j2).predicted_supply
    ∧ 0 < (generateDistrictData region_id district p f district_index j1 j2).predicted_supply
    ∧ 15 ≤ flooredSupply region_id p f district_index j2
    ∧ 0 < flooredSupply region_id p f district_index j2 := by
  have hd : (20 : ℚ) ≤ flooredDemand region_id p f district_index j1 := by
    unfold flooredDemand
    exact le_max_right _ _
  have hs : (15 : ℚ) ≤ flooredSupply region_id p f district_index j2 := by
    unfold flooredSupply
    exact le_max_right _ _
  have hrd : (20 : ℚ) ≤ pyRound 1 (flooredDemand region_id p f district_index j1) := by
    exact_mod_cast pyRound_one_ge_int 20 _ (by exact_mod_cast hd)
  have hrs : (15 : ℚ) ≤ pyRound 1 (flooredSupply region_id p f district_index j2) := by
    exact_mod_cast pyRound_one_ge_int 15 _ (by exact_mod_cast hs)
  refine ⟨hrd, hrs, ?_, hs, by linarith⟩
  show (0 : ℚ) < pyRound 1 (flooredSupply region_id p f district_index j2)
  linarith

/-- C7: the stress label produced by district estimation is the threshold
classification of the (bonus-adjusted) demand/supply ratio: Deficit iff the
ratio strictly exceeds 1.2, Stable iff it lies in (0.85, 1.2], Surplus iff
it is ≤ 0.85; in particular with zero bonus demand 120 / supply 100 (ratio
exactly 1.2) is Stable and 121 / 100 is Deficit. -/
theorem C7_stress_classification :
    (∀ (region_id : String) (district : District) (p : ScenarioParams)
        (f : Factors) (district_index : ℕ) (j1 j2 : ℚ),
      (generateDistrictData region_id district p f district_index j1 j2).stress_level
        = stressClassify (adjustedStress
            (flooredDemand region_id p f district_index j1)
            (flooredSupply region_id p f district_index j2)
            f.stress_reduction_bonus))
    ∧ (∀ r : ℚ,
        (stressClassify r = .Deficit ↔ r > 1.2)
        ∧ (stressClassify r = .Stable ↔ 0.85 < r ∧ r ≤ 1.2)
        ∧ (stressClassify r = .Surplus ↔ r ≤ 0.85))
    ∧ stressClassify (adjustedStress 120 100 0) = .Stable
    ∧ stressClassify (adjustedStress 121 100 0) = .Deficit := by
  refine ⟨fun _ _ _ _ _ _ _ => rfl, fun r => ?_,
    by norm_num [adjustedStress, stressClassify],
    by norm_num [adjustedStress, stressClassify]⟩
  unfold stressClassify
  split_ifs with h1 h2
  · refine ⟨by simp [h1], by simp; intro h; linarith, by simp; linarith⟩
  · push_neg at h1
    refine ⟨by simp; linarith, by simp [h2, h1], by simp; linarith⟩
  · push_neg at h1 h2
    refine ⟨by simp; linarith, by simp; intro h; linarith, by simp [h2]⟩

/-- C9: an unknown region id (anything outside `district_1..district_5`)
gets the non-empty single-element default district list, and district
estimation falls back to the `district_1` profile, so it behaves exactly as
for `district_1`. -/
theorem C9_unknown_region_fallback (region_id : String)
    (h : region_id ∉ ["district_1", "district_2", "district_3", "district_4", "district_5"]) :
    getDistrictsForRegion region_id = [⟨"Default District", (28, 77)⟩]
    ∧ getDistrictsForRegion region_id ≠ []
    ∧ profileFor region_id = profileFor "district_1"
    ∧ ∀ (district : District) (p : ScenarioParams) (f : Factors)
        (district_index : ℕ) (j1 j2 : ℚ),
        generateDistrictData region_id district p f district_index j1 j2
          = generateDistrictData "district_1" district p f district_index j1 j2 := by
  simp only [List.mem_cons, List.mem_singleton] at h
  push_neg at h
  obtain ⟨h1, h2, h3, h4, h5, -⟩ := h
  have b1 : (region_id == "district_1") = false := beq_eq_false_iff_ne.mpr h1
  have b2 : (region_id == "district_2") = false := beq_eq_false_iff_ne.mpr h2
  have b3 : (region_id == "district_3") = false := beq_eq_false_iff_ne.mpr h3
  have b4 : (region_id == "district_4") = false := beq_eq_false_iff_ne.mpr h4
  have b5 : (region_id == "district_5") = false := beq_eq_false_iff_ne.mpr h5
  have hdist : getDistrictsForRegion region_id = [⟨"Default District", (28, 77)⟩] := by
    simp [getDistrictsForRegion, List.lookup, b1, b2, b3, b4, b5]
  have hprof : profileFor region_id = profileFor "district_1" := by
    simp [profileFor, region_profiles, List.lookup, b1, b2, b3, b4, b5]
  refine ⟨hdist, by simp [hdist], hprof, fun district p f district_index j1 j2 => ?_⟩
  simp only [generateDistrictData, flooredDemand, flooredSupply, hprof]

/-- Concrete witness for C9 at the unknown region id of the spec's test. -/
theorem C9_unknown_region_fallback_witness :
    ("nonexistent_region" ∉ ["district_1", "district_2", "district_3", "district_4", "district_5"])
    ∧ getDistrictsForRegion "nonexistent_region" = [⟨"Default District", (28, 77)⟩]
    ∧ profileFor "nonexistent_region" = profileFor "district_1" :=
  ⟨by decide,
   (C9_unknown_region_fallback "nonexistent_region" (by decide)).1,
   (C9_unknown_region_fallback "nonexistent_region" (by decide)).2.2.1⟩

/-- The summary dict of `_calculate_smart_summary`. -/
structure Summary where
  total_districts : ℕ
  high_risk_count : ℕ
  average_stress_score : ℚ
deriving DecidableEq, Repr

/-- Number of predictions carrying a given stress label. -/
def countLevel (s : StressLevel) (l : List Prediction) : ℕ :=
  l.countP (fun q => q.stress_level == s)

/-- The in-place relabeling loop of `_calculate_smart_summary`: walk the
predictions in order, and while `current < target`, relabel entries whose
level is `fromA` or `fromB` to `to`, incrementing `current` per change. -/
def redistribute (fromA fromB tgt : StressLevel) : ℕ → ℕ → List Prediction → List Prediction
  | _, _, [] => []
  | current, target, q :: rest =>
    if current ≥ target then q :: rest
    else if q.stress_level = fromA ∨ q.stress_level = fromB then
      { q with stress_level := tgt } :: redistribute fromA fromB tgt (current + 1) target rest
    else q :: redistribute fromA fromB tgt current target rest

/-- The IEEE binary64 double nearest to `0.7` — the value of Python's
float literal `0.7`. `0.7 = 1.4·2⁻¹` and `1.4·2^52 = 6305039478318694.4`
rounds down, so `float(0.7) = 6305039478318694·2⁻⁵³`, slightly below
`7/10`. -/
def float07 : ℚ := 6305039478318694 / 2 ^ 53

/-- Rounding of a positive rational onto the IEEE binary64 grid (round to
nearest, ties to even): around `x` the grid has spacing `2^(e−52)` where
`2^e ≤ x < 2^(e+1)` (normal range; overflow and subnormals never arise at
the magnitudes involved here). -/
def flDouble (x : ℚ) : ℚ :=
  (roundHalfEvenZ (x / 2 ^ (Int.log 2 x - 52)) : ℚ) * 2 ^ (Int.log 2 x - 52)

/-- The redistribution phase of `_calculate_smart_summary` (the two
scenario-driven relabeling branches). The surplus target
`int(total_districts * 0.7)` truncates the IEEE-double product
`float(total) * float(0.7)` (for example `90 * 0.7` is the double
`62.99999999999999`, so the code's target at 90 districts is 62), hence
the binary64-exact `⌊flDouble(total · float07)⌋`. The deficit target
`int(total_districts * 0.4)` coincides with the exact rational floor
`⌊0.4·total⌋` at every list size: `float(0.4)` exceeds `4/10` by the
relative error `2⁻⁵⁴`, strictly below every half-ulp, so the double
product always rounds back onto `0.4·total`'s side. -/
def redistributedPredictions (preds : List Prediction) (p : ScenarioParams) :
    List Prediction :=
  let total := preds.length
  let deficit_count := countLevel .Deficit preds
  let surplus_count := countLevel .Surplus preds
  if p.rainfall_change_percent > 30 ∧ p.temperature_change < 4 then
    let target_surplus := max (⌊flDouble ((total : ℚ) * float07)⌋.toNat) 1
    if surplus_count < target_surplus then
      redistribute .Stable .Deficit .Surplus surplus_count target_surplus preds
    else preds
  else if p.rainfall_change_percent < -30
      ∨ (p.rainfall_change_percent < -15 ∧ p.temperature_change > 6) then
    let target_deficit := max (⌊(total : ℚ) * 0.4⌋.toNat) 1
    if deficit_count < target_deficit then
      redistribute .Stable .Surplus .Deficit deficit_count target_deficit preds
    else preds
  else preds

/-- `_calculate_smart_summary(predictions, scenario_params)`: returns the
(possibly relabeled) prediction list together with the summary record. The
Python generator expression skips entries with `predicted_supply ≤ 0`; we
add `0` for them. (On an empty list Python would raise `ZeroDivisionError`
computing the mean; the claims below concern non-empty lists.) -/
def calculateSmartSummary (preds : List Prediction) (p : ScenarioParams) :
    List Prediction × Summary :=
  let total := preds.length
  let preds1 := redistributedPredictions preds p
  let deficit1 := countLevel .Deficit preds1
  let avg := (preds1.map (fun q =>
      if q.predicted_supply > 0 then q.predicted_demand / q.predicted_supply else 0)).sum
    / (total : ℚ)
  (preds1, ⟨total, deficit1, pyRound 2 avg⟩)

lemma redistribute_countLevel_ge (fromA fromB tgt : StressLevel)
    (hex : ∀ s : StressLevel, s = fromA ∨ s = fromB ∨ s = tgt)
    (ha : fromA ≠ tgt) (hb : fromB ≠ tgt) (l : List Prediction) :
    ∀ current target : ℕ,
      countLevel tgt l + min (target - current) (l.length - countLevel tgt l)
        ≤ countLevel tgt (redistribute fromA fromB tgt current target l) := by
  induction l with
  | nil =>
    intro current target
    simp [redistribute, countLevel]
  | cons q rest ih =>
    intro current target
    by_cases hct : current ≥ target
    · have h0 : target - current = 0 := by omega
      simp [redistribute, if_pos hct, h0]
    · by_cases hq : q.stress_level = fromA ∨ q.stress_level = fromB
      · have hqto : (q.stress_level == tgt) = false := by
          rcases hq with h | h <;> simp [h] <;> [exact ha; exact hb]
        have hcur := ih (current + 1) target
        simp only [redistribute, if_neg hct, if_pos hq]
        simp only [countLevel, List.countP_cons, List.length_cons, hqto,
          beq_self_eq_true, Bool.false_eq_true, if_false, if_true] at hcur ⊢
        omega
      · have hqto : q.stress_level = tgt := by
          rcases hex q.stress_level with h | h | h
          · exact absurd (Or.inl h) hq
          · exact absurd (Or.inr h) hq
          · exact h
        have hcur := ih current target
        simp only [redistribute, if_neg hct, if_neg hq]
        simp only [countLevel, List.countP_cons, List.length_cons, hqto,
          beq_self_eq_true, if_true] at hcur ⊢
        omega

/-- `max(⌊n·c⌋, 1) ≤ n` for a fraction `c ≤ 1` and `n ≥ 1`: the relabeling
targets never exceed the number of districts. -/
lemma scaled_target_le (c : ℚ) (_hc0 : 0 ≤ c) (hc1 : c ≤ 1) (n : ℕ) (hn : 1 ≤ n) :
    max (⌊(n : ℚ) * c⌋.toNat) 1 ≤ n := by
  have hnn : (0 : ℚ) ≤ (n : ℚ) := by positivity
  have h1 : (n : ℚ) * c ≤ (n : ℚ) := by nlinarith
  have h2 : ⌊(n : ℚ) * c⌋ ≤ (n : ℤ) := by
    calc ⌊(n : ℚ) * c⌋ ≤ ⌊(n : ℚ)⌋ := Int.floor_le_floor h1
    _ = (n : ℤ) := Int.floor_natCast n
  omega

lemma roundHalfEvenZ_le (y : ℚ) : (roundHalfEvenZ y : ℚ) ≤ y + 1 / 2 := by
  have hfl := Int.floor_le y
  unfold roundHalfEvenZ
  split_ifs <;> push_cast <;> linarith

lemma roundHalfEvenZ_intCast (n : ℤ) : roundHalfEvenZ (n : ℚ) = n := by
  unfold roundHalfEvenZ
  rw [Int.floor_intCast]
  norm_num

lemma int_log_eq (x : ℚ) (e : ℤ) (h0 : 0 < x) (h1 : (2 : ℚ) ^ e ≤ x)
    (h2 : x < (2 : ℚ) ^ (e + 1)) : Int.log 2 x = e := by
  have ha : e ≤ Int.log 2 x := by
    rw [← Int.zpow_le_iff_le_log (by norm_num) h0]
    exact_mod_cast h1
  have hb : Int.log 2 x < e + 1 := by
    rw [← Int.lt_zpow_iff_log_lt (by norm_num) h0]
    exact_mod_cast h2
  omega

/-- Binary64 rounding moves a positive value up by at most half an ulp,
hence by a relative factor of at most `2⁻⁵³`. -/
lemma flDouble_le_mul (x : ℚ) (h0 : 0 < x) :
    flDouble x ≤ x * (1 + (1 / 2) ^ 53) := by
  have hsp : (0 : ℚ) < (2 : ℚ) ^ (Int.log 2 x - 52) := by positivity
  have h2e : (2 : ℚ) ^ (Int.log 2 x) ≤ x := by
    have h := Int.zpow_log_le_self (b := 2) (R := ℚ) (by norm_num) h0
    exact_mod_cast h
  have hr := roundHalfEvenZ_le (x / (2 : ℚ) ^ (Int.log 2 x - 52))
  have hstep : flDouble x ≤ x + (2 : ℚ) ^ (Int.log 2 x - 52) / 2 := by
    unfold flDouble
    calc (roundHalfEvenZ (x / (2 : ℚ) ^ (Int.log 2 x - 52)) : ℚ)
          * (2 : ℚ) ^ (Int.log 2 x - 52)
        ≤ (x / (2 : ℚ) ^ (Int.log 2 x - 52) + 1 / 2)
          * (2 : ℚ) ^ (Int.log 2 x - 52) :=
          mul_le_mul_of_nonneg_right hr hsp.le
      _ = x + (2 : ℚ) ^ (Int.log 2 x - 52) / 2 := by field_simp; ring
  have hgrid : (2 : ℚ) ^ (Int.log 2 x - 52) ≤ x * (1 / 2) ^ 52 := by
    have hx52 : ((1 : ℚ) / 2) ^ 52 = ((2 : ℚ) ^ (52 : ℕ))⁻¹ := by
      rw [div_pow]
      norm_num
    have hsplit : (2 : ℚ) ^ (Int.log 2 x - 52)
        = (2 : ℚ) ^ (Int.log 2 x) * ((2 : ℚ) ^ (52 : ℕ))⁻¹ := by
      rw [← div_eq_mul_inv, zpow_sub₀ (by norm_num : (2 : ℚ) ≠ 0)]
      norm_num
    rw [hsplit, hx52]
    exact mul_le_mul_of_nonneg_right h2e (by positivity)
  have hhalf : x * (1 / 2 : ℚ) ^ 52 / 2 = x * (1 / 2 : ℚ) ^ 53 := by ring
  linarith

/-- The surplus target computed by the code, `max(int(total * 0.7), 1)`,
never exceeds the number of districts. -/
lemma float_surplus_target_le (n : ℕ) (hn : 1 ≤ n) :
    max (⌊flDouble ((n : ℚ) * float07)⌋.toNat) 1 ≤ n := by
  have hf0 : (0 : ℚ) < float07 := by norm_num [float07]
  have hn0 : (0 : ℚ) < (n : ℚ) := by exact_mod_cast hn
  have h0 : (0 : ℚ) < (n : ℚ) * float07 := mul_pos hn0 hf0
  have hle := flDouble_le_mul _ h0
  have hupper : (n : ℚ) * float07 ≤ 7 / 10 * (n : ℚ) := by
    have hfle : float07 ≤ 7 / 10 := by norm_num [float07]
    nlinarith
  have hnum : (7 / 10 : ℚ) * (1 + (1 / 2) ^ 53) < 1 := by norm_num
  have hlt : flDouble ((n : ℚ) * float07) < (n : ℚ) := by nlinarith
  have hfl : ⌊flDouble ((n : ℚ) * float07)⌋ < (n : ℤ) := by
    rw [Int.floor_lt]
    exact_mod_cast hlt
  omega

/-- A rational of the form `m·2^(e−52)` with mantissa `m ∈ [2^52, 2^53)`
is already a binary64 value, so `flDouble` fixes it. -/
lemma flDouble_fixed (m e : ℤ) (h1 : (2 : ℚ) ^ (52 : ℕ) ≤ (m : ℚ))
    (h2 : (m : ℚ) < (2 : ℚ) ^ (53 : ℕ)) :
    flDouble ((m : ℚ) * 2 ^ (e - 52)) = (m : ℚ) * 2 ^ (e - 52) := by
  have h2ne : (2 : ℚ) ≠ 0 := by norm_num
  have hsp : (0 : ℚ) < (2 : ℚ) ^ (e - 52) := by positivity
  have hxl : (2 : ℚ) ^ e ≤ (m : ℚ) * 2 ^ (e - 52) := by
    have hsplit : (2 : ℚ) ^ e = (2 : ℚ) ^ (52 : ℕ) * (2 : ℚ) ^ (e - 52) := by
      rw [← zpow_natCast (2 : ℚ) 52, ← zpow_add₀ h2ne]
      norm_num
    rw [hsplit]
    exact mul_le_mul_of_nonneg_right h1 hsp.le
  have hxu : (m : ℚ) * 2 ^ (e - 52) < (2 : ℚ) ^ (e + 1) := by
    have hsplit : (2 : ℚ) ^ (e + 1) = (2 : ℚ) ^ (53 : ℕ) * (2 : ℚ) ^ (e - 52) := by
      rw [← zpow_natCast (2 : ℚ) 53, ← zpow_add₀ h2ne]
      congr 1
      omega
    rw [hsplit]
    exact mul_lt_mul_of_pos_right h2 hsp
  have h0 : (0 : ℚ) < (m : ℚ) * 2 ^ (e - 52) :=
    lt_of_lt_of_le (by positivity) hxl
  have hlog : Int.log 2 ((m : ℚ) * 2 ^ (e - 52)) = e := int_log_eq _ e h0 hxl hxu
  unfold flDouble
  rw [hlog]
  have hqu : (m : ℚ) * 2 ^ (e - 52) / (2 : ℚ) ^ (e - 52) = (m : ℚ) := by
    field_simp
  rw [hqu, roundHalfEvenZ_intCast]

/-- The float target genuinely differs from the exact rational floor: at 90
districts the code computes `int(90 * 0.7) = int(62.99999999999999) = 62`,
one below `⌊0.7·90⌋ = 63` (`90·float07 / 2⁻⁴⁷ = 8866461766385663.4375`
rounds down to the double `8866461766385663·2⁻⁴⁷ ≈ 62.999999999999996`). -/
lemma flDouble_target_at_90 :
    ⌊flDouble ((90 : ℚ) * float07)⌋ = 62 ∧ ⌊(90 : ℚ) * (7 / 10 : ℚ)⌋ = 63 := by
  constructor
  · have hlog : Int.log 2 ((90 : ℚ) * float07) = 5 :=
      int_log_eq _ 5 (by norm_num [float07]) (by norm_num [float07])
        (by norm_num [float07])
    unfold flDouble
    rw [hlog]
    have hq : (90 : ℚ) * float07 / 2 ^ ((5 : ℤ) - 52)
        = 8866461766385663 + 7 / 16 := by
      norm_num [float07]
    rw [hq]
    have hro : roundHalfEvenZ (8866461766385663 + 7 / 16 : ℚ)
        = 8866461766385663 := by
      have hfloor : ⌊(8866461766385663 + 7 / 16 : ℚ)⌋ = 8866461766385663 := by
        rw [Int.floor_eq_iff]; norm_num
      unfold roundHalfEvenZ
      rw [hfloor]
      norm_num
    rw [hro]
    rw [Int.floor_eq_iff]
    norm_num
  · rw [Int.floor_eq_iff]; norm_num

lemma calculateSmartSummary_fst (preds : List Prediction) (p : ScenarioParams) :
    (calculateSmartSummary preds p).1 = redistributedPredictions preds p := rfl

lemma stressLevel_cases (s : StressLevel) :
    s = .Stable ∨ s = .Deficit ∨ s = .Surplus := by
  cases s <;> simp

lemma stressLevel_cases' (s : StressLevel) :
    s = .Stable ∨ s = .Surplus ∨ s = .Deficit := by
  cases s <;> simp

/-- C2 (amended): under `rainfall_change_percent > 30` and
`temperature_change < 4` the redistribution pass of
`_calculate_smart_summary` leaves at least
`max(int(total * 0.7), 1)` Surplus districts, where `int(total * 0.7)` is
the truncation of the IEEE-double product actually computed by the code
(`⌊flDouble(total · float07)⌋` — equal to `⌊0.7·total⌋` at most sizes but
one less at e.g. `total = 90`, and in any case never `ceil(0.7·total)`). -/
theorem C2_surplus_redistribution (preds : List Prediction) (p : ScenarioParams)
    (hne : preds ≠ []) (hr : p.rainfall_change_percent > 30)
    (ht : p.temperature_change < 4) :
    max (⌊flDouble ((preds.length : ℚ) * float07)⌋.toNat) 1
      ≤ countLevel .Surplus (calculateSmartSummary preds p).1 := by
  have hlen : 0 < preds.length := List.length_pos.mpr hne
  have htle : max (⌊flDouble ((preds.length : ℚ) * float07)⌋.toNat) 1 ≤ preds.length :=
    float_surplus_target_le _ hlen
  show max (⌊flDouble ((preds.length : ℚ) * float07)⌋.toNat) 1
      ≤ countLevel .Surplus (redistributedPredictions preds p)
  simp only [redistributedPredictions]
  rw [if_pos ⟨hr, ht⟩]
  by_cases hlt : countLevel .Surplus preds
      < max (⌊flDouble ((preds.length : ℚ) * float07)⌋.toNat) 1
  · rw [if_pos hlt]
    have hkey := redistribute_countLevel_ge .Stable .Deficit .Surplus
      stressLevel_cases (by simp) (by simp) preds
      (countLevel .Surplus preds)
      (max (⌊flDouble ((preds.length : ℚ) * float07)⌋.toNat) 1)
    omega
  · rw [if_neg hlt]
    omega

/-- Concrete instantiation of the amended C2 bound: one Stable district
under the spec's `rainfall = 40, temperature = 1, population = 0`
scenario. -/
theorem C2_surplus_redistribution_witness :
    ([⟨"North Plains A", 20, 15, .Stable, (28, 77)⟩] : List Prediction) ≠ []
    ∧ ((⟨2030, 40, 0, 1⟩ : ScenarioParams).rainfall_change_percent > 30)
    ∧ ((⟨2030, 40, 0, 1⟩ : ScenarioParams).temperature_change < 4)
    ∧ max (⌊flDouble ((([⟨"North Plains A", 20, 15, .Stable, (28, 77)⟩] : List Prediction).length : ℚ) * float07)⌋.toNat) 1
        ≤ countLevel .Surplus
            (calculateSmartSummary [⟨"North Plains A", 20, 15, .Stable, (28, 77)⟩] ⟨2030, 40, 0, 1⟩).1 :=
  ⟨by simp, by norm_num, by norm_num,
    C2_surplus_redistribution _ _ (by simp) (by norm_num) (by norm_num)⟩

/-- C2 counterexample to the claim as stated: with two Stable districts and
`rainfall = 40, temperature = 1, population = 0`, the pass promotes only up
to the truncated target `max(int(2·0.7), 1) = 1`, leaving 1 Surplus
district, strictly below `ceil(0.7·2) = 2`. -/
theorem C2_ceiling_counterexample :
    countLevel .Surplus
      (calculateSmartSummary
        [⟨"North Plains A", 20, 15, .Stable, (28, 77)⟩,
         ⟨"North Plains B", 20, 15, .Stable, (28, 77)⟩] ⟨2030, 40, 0, 1⟩).1 = 1
    ∧ ⌈((([⟨"North Plains A", 20, 15, .Stable, (28, 77)⟩,
           ⟨"North Plains B", 20, 15, .Stable, (28, 77)⟩] : List Prediction).length : ℚ) * 0.7)⌉.toNat = 2
    ∧ ¬ (1 ≥ 2) := by
  have h2c : ((2 : ℕ) : ℚ) * float07
      = ((6305039478318694 : ℤ) : ℚ) * 2 ^ ((0 : ℤ) - 52) := by
    norm_num [float07]
  have hfl : ⌊flDouble (((2 : ℕ) : ℚ) * float07)⌋ = 1 := by
    rw [h2c, flDouble_fixed 6305039478318694 0 (by norm_num) (by norm_num)]
    rw [Int.floor_eq_iff]
    norm_num
  have hcl : ⌈((2 : ℕ) : ℚ) * 0.7⌉ = 2 := by
    rw [Int.ceil_eq_iff]; norm_num
  refine ⟨?_, by rw [show (([⟨"North Plains A", 20, 15, .Stable, (28, 77)⟩,
      ⟨"North Plains B", 20, 15, .Stable, (28, 77)⟩] : List Prediction).length) = 2 from rfl, hcl]; rfl, by omega⟩
  rw [calculateSmartSummary_fst]
  simp only [redistributedPredictions, List.length_cons, List.length_nil]
  rw [if_pos (by constructor <;> norm_num)]
  rw [show ((0 + 1 + 1 : ℕ) : ℚ) = ((2 : ℕ) : ℚ) by norm_num, hfl]
  norm_num [countLevel, List.countP, List.countP.go, redistribute]
  decide

/-- C3 (amended): under `rainfall_change_percent < -30`, or
`rainfall_change_percent < -15` with `temperature_change > 6`, the
redistribution pass of `_calculate_smart_summary` leaves at least
`max(⌊0.4·total⌋, 1)` Deficit districts (the code computes the target with
`int(total * 0.4)`, i.e. the floor, not the ceiling). -/
theorem C3_deficit_redistribution (preds : List Prediction) (p : ScenarioParams)
    (hne : preds ≠ [])
    (hd : p.rainfall_change_percent < -30
      ∨ (p.rainfall_change_percent < -15 ∧ p.temperature_change > 6)) :
    max (⌊(preds.length : ℚ) * 0.4⌋.toNat) 1
      ≤ countLevel .Deficit (calculateSmartSummary preds p).1 := by
  have hlen : 0 < preds.length := List.length_pos.mpr hne
  have htle : max (⌊(preds.length : ℚ) * 0.4⌋.toNat) 1 ≤ preds.length :=
    scaled_target_le 0.4 (by norm_num) (by norm_num) _ hlen
  have hnot : ¬ (p.rainfall_change_percent > 30 ∧ p.temperature_change < 4) := by
    rcases hd with h | ⟨h, -⟩ <;> (rintro ⟨h30, -⟩; linarith)
  rw [calculateSmartSummary_fst]
  simp only [redistributedPredictions]
  rw [if_neg hnot, if_pos hd]
  by_cases hlt : countLevel .Deficit preds < max (⌊(preds.length : ℚ) * 0.4⌋.toNat) 1
  · rw [if_pos hlt]
    have hkey := redistribute_countLevel_ge .Stable .Surplus .Deficit
      stressLevel_cases' (by simp) (by simp) preds
      (countLevel .Deficit preds) (max (⌊(preds.length : ℚ) * 0.4⌋.toNat) 1)
    omega
  · rw [if_neg hlt]
    omega

/-- Concrete instantiation of the amended C3 bound: one Surplus district
under the spec's drought scenario `rainfall = -40, temperature = 2`. -/
theorem C3_deficit_redistribution_witness :
    ([⟨"North Plains A", 20, 15, .Surplus, (28, 77)⟩] : List Prediction) ≠ []
    ∧ ((⟨2030, -40, 0, 2⟩ : ScenarioParams).rainfall_change_percent < -30)
    ∧ max (⌊(([⟨"North Plains A", 20, 15, .Surplus, (28, 77)⟩] : List Prediction).length : ℚ) * 0.4⌋.toNat) 1
        ≤ countLevel .Deficit
            (calculateSmartSummary [⟨"North Plains A", 20, 15, .Surplus, (28, 77)⟩] ⟨2030, -40, 0, 2⟩).1 :=
  ⟨by simp, by norm_num,
    C3_deficit_redistribution _ _ (by simp) (Or.inl (by norm_num))⟩

/-- C3 counterexample to the claim as stated: with three Surplus districts
and `rainfall = -40, temperature = 2`, the pass demotes only up to the
truncated target `max(int(3·0.4), 1) = 1`, leaving 1 Deficit district,
strictly below `max(1, ceil(0.4·3)) = 2`. -/
theorem C3_ceiling_counterexample :
    countLevel .Deficit
      (calculateSmartSummary
        [⟨"North Plains A", 20, 15, .Surplus, (28, 77)⟩,
         ⟨"North Plains B", 20, 15, .Surplus, (28, 77)⟩,
         ⟨"Coastal Valley A", 20, 15, .Surplus, (28, 77)⟩] ⟨2030, -40, 0, 2⟩).1 = 1
    ∧ max (⌈((([⟨"North Plains A", 20, 15, .Surplus, (28, 77)⟩,
           ⟨"North Plains B", 20, 15, .Surplus, (28, 77)⟩,
           ⟨"Coastal Valley A", 20, 15, .Surplus, (28, 77)⟩] : List Prediction).length : ℚ) * 0.4)⌉.toNat) 1 = 2
    ∧ ¬ (1 ≥ 2) := by
  have hfl : ⌊((3 : ℕ) : ℚ) * 0.4⌋ = 1 := by
    rw [Int.floor_eq_iff]; norm_num
  have hcl : ⌈((3 : ℕ) : ℚ) * 0.4⌉ = 2 := by
    rw [Int.ceil_eq_iff]; norm_num
  refine ⟨?_, by rw [show (([⟨"North Plains A", 20, 15, .Surplus, (28, 77)⟩,
      ⟨"North Plains B", 20, 15, .Surplus, (28, 77)⟩,
      ⟨"Coastal Valley A", 20, 15, .Surplus, (28, 77)⟩] : List Prediction).length) = 3 from rfl, hcl]; rfl,
    by omega⟩
  rw [calculateSmartSummary_fst]
  simp only [redistributedPredictions, List.length_cons, List.length_nil]
  rw [if_neg (by rintro ⟨h30, -⟩; norm_num at h30), if_pos (Or.inl (by norm_num))]
  rw [show ((0 + 1 + 1 + 1 : ℕ) : ℚ) = ((3 : ℕ) : ℚ) by norm_num, hfl]
  norm_num [countLevel, List.countP, List.countP.go, redistribute]
  decide

/-- Python's `str.strip`: drop leading and trailing whitespace. -/
def trimChars (cs : List Char) : List Char :=
  ((cs.dropWhile Char.isWhitespace).reverse.dropWhile Char.isWhitespace).reverse

/-- Python's `str.split(sep)` for a single separator character. -/
def splitOnChar (sep : Char) : List Char → List (List Char)
  | [] => [[]]
  | c :: cs =>
    if c = sep then [] :: splitOnChar sep cs
    else
      match splitOnChar sep cs with
      | [] => [[c]]
      | g :: gs => (c :: g) :: gs

/-- Python's `line.split(':', 1)` under the guard `':' in line`: `none` when
the line has no colon, otherwise the part before the first colon and the
rest. -/
def splitFirstColon : List Char → Option (List Char × List Char)
  | [] => none
  | c :: cs =>
    if c = ':' then some ([], cs)
    else
      match splitFirstColon cs with
      | none => none
      | some (k, v) => some (c :: k, v)

/-- A character matched by the regex class `[\d.]`. -/
def isNumChar (c : Char) : Bool := c.isDigit || c = '.'

/-- Accumulator pass of `re.findall(r'[\d.]+', s)`: maximal runs of digits
and dots, in order. -/
def findNumTokensAux : Option (List Char) → List Char → List (List Char)
  | none, [] => []
  | some tok, [] => [tok.reverse]
  | none, c :: cs =>
    if isNumChar c then findNumTokensAux (some [c]) cs
    else findNumTokensAux none cs
  | some tok, c :: cs =>
    if isNumChar c then findNumTokensAux (some (c :: tok)) cs
    else tok.reverse :: findNumTokensAux none cs

/-- `re.findall(r'[\d.]+', s)`. -/
def findNumTokens (cs : List Char) : List (List Char) := findNumTokensAux none cs

/-- Numeric value of a digit run. -/
def digitsVal (cs : List Char) : ℕ :=
  cs.foldl (fun a c => a * 10 + (c.toNat - 48)) 0

/-- Python's `float(token)` on a token drawn from `[\d.]+`: defined iff the
token has at least one digit and at most one dot (otherwise `float` raises
`ValueError`). -/
def parseFloatToken (cs : List Char) : Option ℚ :=
  if cs.count '.' ≤ 1 ∧ cs.any Char.isDigit then
    match splitOnChar '.' cs with
    | [ip] => some (digitsVal ip : ℚ)
    | [ip, fp] => some ((digitsVal ip : ℚ) + (digitsVal fp : ℚ) / 10 ^ fp.length)
    | _ => none
  else none

/-- `key.strip().lower().replace(' ', '_')`. -/
def normalizeKey (cs : List Char) : List Char :=
  (trimChars cs).map (fun c => if Char.toLower c = ' ' then '_' else Char.toLower c)

/-- One iteration of the parsing loop of `_parse_ai_factors`:
`.error ()` models a `ValueError` escaping from `float`, `.ok none` a line
that assigns nothing, `.ok (some kv)` a clamped assignment
`factors[key] = max(0.1, min(3.0, value))`. -/
def processLine (line : List Char) : Except Unit (Option (List Char × ℚ)) :=
  match splitFirstColon line with
  | none => .ok none
  | some (k, v) =>
    match findNumTokens (trimChars v) with
    | [] => .ok none
    | t :: _ =>
      match parseFloatToken t with
      | none => .error ()
      | some x => .ok (some (normalizeKey k, max 0.1 (min 3.0 x)))

/-- The parsing loop of `_parse_ai_factors` over all lines. New assignments
are prepended, so a front-most `lookup` sees the latest assignment of a
key, matching Python dict overwrite semantics; an `.error` anywhere aborts
the whole parse, matching the `try` block around the loop. -/
def collectFactors : List (List Char) → List (List Char × ℚ) → Except Unit (List (List Char × ℚ))
  | [], acc => .ok acc
  | line :: rest, acc =>
    match processLine line with
    | .error _ => .error ()
    | .ok none => collectFactors rest acc
    | .ok (some kv) => collectFactors rest (kv :: acc)

/-- `_parse_ai_factors(ai_response)`: parse the advisory free text into a
factor record; any parse exception falls back to
`_get_smart_factors({})` (all scenario fields read as `0`). -/
def parseAiFactors (ai_response : String) : Factors :=
  match collectFactors (splitOnChar '\n' (trimChars ai_response.data)) [] with
  | .error _ => smartFactors 0 0 0
  | .ok factors =>
    { demand_multiplier := (factors.lookup "demand_multiplier".data).getD 1.0
      supply_multiplier := (factors.lookup "supply_multiplier".data).getD 1.0
      stress_reduction_bonus := (factors.lookup "stress_reduction_bonus".data).getD 0.0
      district_variation := (factors.lookup "district_variation".data).getD 0.2 }

/-- `_get_ai_scenario_factors(region_id, scenario_params)`. The advisory
channel (`self.model.generate_content` and the preceding
`self.region_profiles[region_id]` lookup) sits inside a `try` whose
`except` returns the deterministic factors; `advisory` returning
`.error` models any exception from the external call. -/
def getAiScenarioFactors (initialized : Bool)
    (advisory : String → ScenarioParams → Except String String)
    (region_id : String) (p : ScenarioParams) : Factors :=
  if initialized = false then smartFactorsOf p
  else
    match region_profiles.lookup region_id with
    | none => smartFactorsOf p
    | some _ =>
      match advisory region_id p with
      | .error _ => smartFactorsOf p
      | .ok resp => parseAiFactors resp

lemma processLine_clamped (line : List Char) (kv : List Char × ℚ)
    (h : processLine line = .ok (some kv)) : 0.1 ≤ kv.2 ∧ kv.2 ≤ 3 := by
  unfold processLine at h
  repeat' split at h
  all_goals cases h
  exact ⟨le_max_left _ _,
    max_le (by norm_num) (le_trans (min_le_left _ _) (by norm_num))⟩

lemma collectFactors_clamped (lines : List (List Char)) :
    ∀ (acc fs : List (List Char × ℚ)),
      (∀ kv ∈ acc, 0.1 ≤ kv.2 ∧ kv.2 ≤ 3) →
      collectFactors lines acc = .ok fs →
      ∀ kv ∈ fs, 0.1 ≤ kv.2 ∧ kv.2 ≤ 3 := by
  induction lines with
  | nil =>
    intro acc fs hacc h
    simp only [collectFactors] at h
    cases h
    exact hacc
  | cons line rest ih =>
    intro acc fs hacc h
    simp only [collectFactors] at h
    split at h
    · cases h
    · exact ih acc fs hacc h
    · rename_i kv hkv
      refine ih _ fs ?_ h
      intro kv' hkv'
      rcases List.mem_cons.mp hkv' with h' | h'
      · subst h'
        exact processLine_clamped line kv' hkv
      · exact hacc kv' h'

lemma lookup_clamped (l : List (List Char × ℚ))
    (hcl : ∀ kv ∈ l, 0.1 ≤ kv.2 ∧ kv.2 ≤ 3) (k : List Char) (v : ℚ)
    (h : l.lookup k = some v) : 0.1 ≤ v ∧ v ≤ 3 := by
  induction l with
  | nil => simp [List.lookup] at h
  | cons kv rest ih =>
    obtain ⟨k', v'⟩ := kv
    simp only [List.lookup] at h
    split at h
    · cases h
      exact hcl (k', v) (List.mem_cons_self _ _)
    · exact ih (fun kv hkv => hcl kv (List.mem_cons_of_mem _ hkv)) h

/-- C5 (amended): every factor parsed by `_parse_ai_factors` is clamped to
`[0.1, 3.0]` only — no second field-specific clamp exists in the code — so
for every advisory response the resulting record satisfies
`demand_multiplier, supply_multiplier, district_variation ∈ [0.1, 3]` and
`stress_reduction_bonus ∈ [0, 3]` (a missing field takes its default `1.0`,
`1.0`, `0.0` or `0.2`, and a parse exception yields
`_get_smart_factors({})`, i.e. `1.0, 1.0, 0.0, 0.15`). -/
theorem C5_parsed_factor_bounds (ai_response : String) :
    (0.1 ≤ (parseAiFactors ai_response).demand_multiplier
      ∧ (parseAiFactors ai_response).demand_multiplier ≤ 3)
    ∧ (0.1 ≤ (parseAiFactors ai_response).supply_multiplier
      ∧ (parseAiFactors ai_response).supply_multiplier ≤ 3)
    ∧ (0 ≤ (parseAiFactors ai_response).stress_reduction_bonus
      ∧ (parseAiFactors ai_response).stress_reduction_bonus ≤ 3)
    ∧ (0.1 ≤ (parseAiFactors ai_response).district_variation
      ∧ (parseAiFactors ai_response).district_variation ≤ 3) := by
  unfold parseAiFactors
  split
  · norm_num [smartFactors, clampQ]
  · rename_i fs hfs
    have hcl := collectFactors_clamped _ [] fs (by simp) hfs
    refine ⟨?_, ?_, ?_, ?_⟩
    · cases hl : fs.lookup "demand_multiplier".data with
      | none => simp only [hl, Option.getD_none]; norm_num
      | some v =>
        have := lookup_clamped fs hcl _ v hl
        simp only [hl, Option.getD_some]
        exact this
    · cases hl : fs.lookup "supply_multiplier".data with
      | none => simp only [hl, Option.getD_none]; norm_num
      | some v =>
        have := lookup_clamped fs hcl _ v hl
        simp only [hl, Option.getD_some]
        exact this
    · cases hl : fs.lookup "stress_reduction_bonus".data with
      | none => simp only [hl, Option.getD_none]; norm_num
      | some v =>
        have := lookup_clamped fs hcl _ v hl
        simp only [hl, Option.getD_some]
        refine ⟨by linarith [this.1], this.2⟩
    · cases hl : fs.lookup "district_variation".data with
      | none => norm_num [hl]
      | some v =>
        have := lookup_clamped fs hcl _ v hl
        simp only [hl, Option.getD_some]
        exact this

/-- C5 counterexample to the claim as stated: the advisory response
`demand_multiplier: 2.5` parses to `demand_multiplier = 2.5`, which is kept
as-is (clamped only to `[0.1, 3.0]`) and violates the claimed field range
`[0.7, 1.8]`. -/
theorem C5_field_range_counterexample :
    (parseAiFactors "demand_multiplier: 2.5").demand_multiplier = 2.5
    ∧ ¬ ((parseAiFactors "demand_multiplier: 2.5").demand_multiplier ≤ 1.8) := by
  have hval : (parseAiFactors "demand_multiplier: 2.5").demand_multiplier = 2.5 := by
    rw [show (parseAiFactors "demand_multiplier: 2.5").demand_multiplier
      = max 0.1 (min 3.0 ((digitsVal ['2'] : ℚ) + (digitsVal ['5'] : ℚ) / 10 ^ 1)) from rfl]
    rw [show digitsVal ['2'] = 2 from rfl, show digitsVal ['5'] = 5 from rfl]
    rw [show ((2 : ℕ) : ℚ) + ((5 : ℕ) : ℚ) / 10 ^ 1 = 2.5 by norm_num]
    rw [min_eq_right (by norm_num), max_eq_right (by norm_num)]
  exact ⟨hval, by rw [hval]; norm_num⟩

/-- `generate_scenario_key(region_id, scenario_params)`: the cache key
`f"{region_id}_{year}_{rainfall}_{population}_{temperature}"`. -/
def generate_scenario_key (region_id : String) (p : ScenarioParams) : String :=
  region_id ++ "_" ++ toString p.year
    ++ "_" ++ toString p.rainfall_change_percent
    ++ "_" ++ toString p.population_change_percent
    ++ "_" ++ toString p.temperature_change

/-- The full multi-region scenario result dict. -/
structure ScenarioResult where
  predictions : List Prediction
  summary : Summary
  ai_enhanced : Bool
deriving DecidableEq, Repr

/-- The injected environment of the generator: whether Gemini is
initialized, the advisory channel, and the stream of `random.uniform`
draw pairs (one pair per generated prediction). -/
structure Env where
  initialized : Bool
  advisory : String → ScenarioParams → Except String String
  jitter : ℕ → ℚ × ℚ

/-- Explicit state of a `SmartDataGenerator` instance: the scenario cache,
plus an instrumentation counter of estimation-pipeline executions (the
spec's "call counter on the estimation pipeline"). -/
structure GenState where
  cache : List (String × ScenarioResult)
  pipelineRuns : ℕ

/-- The per-region prediction loop of `generate_realistic_scenario`:
resolve factors once per region, then estimate each district;
`k` is the global prediction index feeding the jitter stream. -/
def buildPredictions (env : Env) (p : ScenarioParams) :
    List String → ℕ → List Prediction
  | [], _ => []
  | r :: rs, k =>
    let f := getAiScenarioFactors env.initialized env.advisory r p
    let districts := getDistrictsForRegion r
    (districts.enum.map (fun d =>
      generateDistrictData r d.2 p f d.1 (env.jitter (k + d.1)).1 (env.jitter (k + d.1)).2))
      ++ buildPredictions env p rs (k + districts.length)

/-- `generate_realistic_scenario(region_ids, scenario_params)` (list form):
check the cache under the joined-region key, else run the full pipeline,
store the result and bump the pipeline counter. -/
def generateRealisticScenario (env : Env) (st : GenState)
    (region_ids : List String) (p : ScenarioParams) :
    ScenarioResult × GenState :=
  let scenario_key := generate_scenario_key (String.intercalate "_" region_ids) p
  match st.cache.lookup scenario_key with
  | some r => (r, st)
  | none =>
    let all_predictions := buildPredictions env p region_ids 0
    let cs := calculateSmartSummary all_predictions p
    let result : ScenarioResult := ⟨cs.1, cs.2, env.initialized⟩
    (result, ⟨(scenario_key, result) :: st.cache, st.pipelineRuns + 1⟩)

/-- C1: starting from a state where the key is uncached, two successive
calls with the same region list and the same scenario parameters run the
estimation pipeline (and hence the advisory call) exactly once: the first
call bumps the pipeline counter by one, the second is a cache hit that
returns the stored result unchanged and leaves the state untouched. -/
theorem C1_cache_idempotence (env : Env) (st : GenState)
    (region_ids : List String) (p : ScenarioParams)
    (h : st.cache.lookup
      (generate_scenario_key (String.intercalate "_" region_ids) p) = none) :
    (generateRealisticScenario env st region_ids p).2.pipelineRuns
        = st.pipelineRuns + 1
    ∧ (generateRealisticScenario env
        (generateRealisticScenario env st region_ids p).2 region_ids p).1
      = (generateRealisticScenario env st region_ids p).1
    ∧ (generateRealisticScenario env
        (generateRealisticScenario env st region_ids p).2 region_ids p).2
      = (generateRealisticScenario env st region_ids p).2 := by
  have hfst : generateRealisticScenario env st region_ids p
      = (⟨(calculateSmartSummary (buildPredictions env p region_ids 0) p).1,
          (calculateSmartSummary (buildPredictions env p region_ids 0) p).2,
          env.initialized⟩,
         ⟨(generate_scenario_key (String.intercalate "_" region_ids) p,
           ⟨(calculateSmartSummary (buildPredictions env p region_ids 0) p).1,
            (calculateSmartSummary (buildPredictions env p region_ids 0) p).2,
            env.initialized⟩) :: st.cache, st.pipelineRuns + 1⟩) := by
    simp only [generateRealisticScenario, h]
  have hsnd : generateRealisticScenario env
      (generateRealisticScenario env st region_ids p).2 region_ids p
      = ((generateRealisticScenario env st region_ids p).1,
         (generateRealisticScenario env st region_ids p).2) := by
    rw [hfst]
    simp only [generateRealisticScenario, List.lookup, beq_self_eq_true]
  refine ⟨by rw [hfst], by rw [hsnd], by rw [hsnd]⟩

/-- Concrete run of C1 from the empty cache with the advisory channel
failing and unit jitter. -/
theorem C1_cache_idempotence_witness :
    ((⟨[], 0⟩ : GenState).cache.lookup
      (generate_scenario_key (String.intercalate "_" ["district_1"]) ⟨2030, 0, 0, 0⟩) = none)
    ∧ ((generateRealisticScenario ⟨false, fun _ _ => .error "unavailable", fun _ => (1, 1)⟩
          ⟨[], 0⟩ ["district_1"] ⟨2030, 0, 0, 0⟩).2.pipelineRuns = 0 + 1
      ∧ (generateRealisticScenario ⟨false, fun _ _ => .error "unavailable", fun _ => (1, 1)⟩
          (generateRealisticScenario ⟨false, fun _ _ => .error "unavailable", fun _ => (1, 1)⟩
            ⟨[], 0⟩ ["district_1"] ⟨2030, 0, 0, 0⟩).2 ["district_1"] ⟨2030, 0, 0, 0⟩).1
        = (generateRealisticScenario ⟨false, fun _ _ => .error "unavailable", fun _ => (1, 1)⟩
            ⟨[], 0⟩ ["district_1"] ⟨2030, 0, 0, 0⟩).1
      ∧ (generateRealisticScenario ⟨false, fun _ _ => .error "unavailable", fun _ => (1, 1)⟩
          (generateRealisticScenario ⟨false, fun _ _ => .error "unavailable", fun _ => (1, 1)⟩
            ⟨[], 0⟩ ["district_1"] ⟨2030, 0, 0, 0⟩).2 ["district_1"] ⟨2030, 0, 0, 0⟩).2
        = (generateRealisticScenario ⟨false, fun _ _ => .error "unavailable", fun _ => (1, 1)⟩
            ⟨[], 0⟩ ["district_1"] ⟨2030, 0, 0, 0⟩).2) :=
  ⟨rfl, C1_cache_idempotence _ _ _ _ rfl⟩

/-- C10: the cache key builder is not injective over region sequences — the
single region `["district_1_district_2"]` and the pair
`["district_1", "district_2"]` join to the same underscore-separated key,
so after a call with the first sequence, a call with the second (same
scenario fields) is a cache hit returning the first call's stored result,
and the pipeline never runs for the second sequence. -/
theorem C10_key_collision (env : Env) (p : ScenarioParams) :
    generate_scenario_key (String.intercalate "_" ["district_1_district_2"]) p
      = generate_scenario_key (String.intercalate "_" ["district_1", "district_2"]) p
    ∧ (generateRealisticScenario env
        (generateRealisticScenario env ⟨[], 0⟩ ["district_1_district_2"] p).2
        ["district_1", "district_2"] p).1
      = (generateRealisticScenario env ⟨[], 0⟩ ["district_1_district_2"] p).1
    ∧ (generateRealisticScenario env
        (generateRealisticScenario env ⟨[], 0⟩ ["district_1_district_2"] p).2
        ["district_1", "district_2"] p).2.pipelineRuns = 1 := by
  have hjoin : String.intercalate "_" ["district_1_district_2"]
      = String.intercalate "_" ["district_1", "district_2"] := by decide
  have hkey : generate_scenario_key (String.intercalate "_" ["district_1_district_2"]) p
      = generate_scenario_key (String.intercalate "_" ["district_1", "district_2"]) p := by
    rw [hjoin]
  have hfst : generateRealisticScenario env ⟨[], 0⟩ ["district_1_district_2"] p
      = (⟨(calculateSmartSummary (buildPredictions env p ["district_1_district_2"] 0) p).1,
          (calculateSmartSummary (buildPredictions env p ["district_1_district_2"] 0) p).2,
          env.initialized⟩,
         ⟨(generate_scenario_key (String.intercalate "_" ["district_1_district_2"]) p,
           ⟨(calculateSmartSummary (buildPredictions env p ["district_1_district_2"] 0) p).1,
            (calculateSmartSummary (buildPredictions env p ["district_1_district_2"] 0) p).2,
            env.initialized⟩) :: ([] : List (String × ScenarioResult)), 0 + 1⟩) := by
    simp only [generateRealisticScenario, List.lookup]
  have hsnd : generateRealisticScenario env
      (generateRealisticScenario env ⟨[], 0⟩ ["district_1_district_2"] p).2
      ["district_1", "district_2"] p
      = ((generateRealisticScenario env ⟨[], 0⟩ ["district_1_district_2"] p).1,
         (generateRealisticScenario env ⟨[], 0⟩ ["district_1_district_2"] p).2) := by
    rw [hfst]
    simp only [generateRealisticScenario, List.lookup, ← hkey, beq_self_eq_true]
  refine ⟨hkey, by rw [hsnd], by rw [hsnd, hfst]⟩

/-- C8: the Factor Resolver absorbs every advisory failure. In the
embedding `_get_ai_scenario_factors` is a total function (it cannot
propagate an exception); this theorem checks that in each failure case —
missing credentials (`is_initialized` false), unknown region profile
(`KeyError` in the `try`), advisory service error, and a malformed
response inside `_parse_ai_factors` — it returns the deterministic
fallback factors. -/
theorem C8_advisory_failures_absorbed
    (advisory : String → ScenarioParams → Except String String)
    (region_id : String) (p : ScenarioParams) :
    getAiScenarioFactors false advisory region_id p = smartFactorsOf p
    ∧ (region_profiles.lookup region_id = none →
        getAiScenarioFactors true advisory region_id p = smartFactorsOf p)
    ∧ (∀ e, advisory region_id p = Except.error e →
        getAiScenarioFactors true advisory region_id p = smartFactorsOf p)
    ∧ (∀ resp : String,
        collectFactors (splitOnChar '\n' (trimChars resp.data)) [] = .error () →
        parseAiFactors resp = smartFactors 0 0 0) := by
  refine ⟨rfl, ?_, ?_, ?_⟩
  · intro h
    simp [getAiScenarioFactors, h]
  · intro e he
    cases hl : region_profiles.lookup region_id <;>
      simp [getAiScenarioFactors, hl, he]
  · intro resp hresp
    simp [parseAiFactors, hresp]

/-- Concrete instances for C8: a failing advisory channel, the unknown
region `nonexistent_region`, and the malformed response
`demand_multiplier: ..` (whose numeric token makes `float` raise). -/
theorem C8_advisory_failures_absorbed_witness :
    (region_profiles.lookup "nonexistent_region" = none)
    ∧ ((fun (_ : String) (_ : ScenarioParams) =>
          (Except.error "timeout" : Except String String)) "district_1"
        (⟨2030, 0, 0, 0⟩ : ScenarioParams) = Except.error "timeout")
    ∧ (collectFactors
        (splitOnChar '\n' (trimChars ("demand_multiplier: .." : String).data)) []
        = .error ())
    ∧ getAiScenarioFactors false (fun _ _ => .error "timeout") "district_1" ⟨2030, 0, 0, 0⟩
        = smartFactorsOf ⟨2030, 0, 0, 0⟩
    ∧ getAiScenarioFactors true (fun _ _ => .error "timeout") "nonexistent_region" ⟨2030, 0, 0, 0⟩
        = smartFactorsOf ⟨2030, 0, 0, 0⟩
    ∧ getAiScenarioFactors true (fun _ _ => .error "timeout") "district_1" ⟨2030, 0, 0, 0⟩
        = smartFactorsOf ⟨2030, 0, 0, 0⟩
    ∧ parseAiFactors "demand_multiplier: .." = smartFactors 0 0 0 :=
  ⟨rfl, rfl, rfl,
   (C8_advisory_failures_absorbed (fun _ _ => .error "timeout") "district_1" ⟨2030, 0, 0, 0⟩).1,
   (C8_advisory_failures_absorbed (fun _ _ => .error "timeout") "nonexistent_region"
      ⟨2030, 0, 0, 0⟩).2.1 rfl,
   (C8_advisory_failures_absorbed (fun _ _ => .error "timeout") "district_1"
      ⟨2030, 0, 0, 0⟩).2.2.1 "timeout" rfl,
   (C8_advisory_failures_absorbed (fun _ _ => .error "timeout") "district_1"
      ⟨2030, 0, 0, 0⟩).2.2.2 "demand_multiplier: .." rfl⟩

end AquaForesee
